import Mathlib

/-!
# KAVACH Adaptive Risk Engine — verification development

Shallow embedding of the KAVACH adaptive-risk-engine decision pipeline:
regime classification, regime detection, the rebalancing engine's
state machine (evaluate / deploy / stress test), the market-data
fetch orchestration, and the frontend presentation helpers
(RegimeIndicator, Dashboard.getAllocationSummary, Portfolio.getAssets).

The repository's frontend sources are embedded directly from
src/frontend and src/unnamed/part_000 (Portfolio.jsx, Dashboard.jsx,
RegimeIndicator.jsx).  The backend modules named by the repository's
README (regime.py, rebalancer.py, market_data.py, app.py) are not part
of the available sources, so those components are modelled from the
specification; each such definition carries a doc comment starting
with "Modelled from the spec:".

Real numbers of the program (z-scores, volatilities, dollar amounts)
are embedded as rationals.
-/

namespace Kavach

/-- The three market regimes: calm (level 1), turbulent (level 2),
crash (level 3). -/
inductive RegimeName where
  | calm : RegimeName
  | turbulent : RegimeName
  | crash : RegimeName
deriving DecidableEq, Repr

/-- Modelled from the spec: regime.py is not in the available sources.
Classification of a z-score into a level, thresholds evaluated high to
low so higher regimes win ties: z ≥ 3.0 → 3 (crash), z ≥ 2.0 → 2
(turbulent), otherwise 1 (calm). -/
def classifyLevel (z : ℚ) : ℕ :=
  if z ≥ 3 then 3
  else if z ≥ 2 then 2
  else 1

/-- Modelled from the spec: regime.py is not in the available sources.
The regime name attached to a z-score, same threshold table as
classifyLevel. -/
def classifyName (z : ℚ) : RegimeName :=
  if z ≥ 3 then .crash
  else if z ≥ 2 then .turbulent
  else .calm

/-- RegimeState record of the data model: level, regime name, z-score,
current volatility, fixed baseline mean/std, detector id and
timestamp. -/
structure RegimeState where
  level : ℕ
  regime_name : RegimeName
  z_score : ℚ
  current_vol : ℚ
  baseline_mean : ℚ
  baseline_std : ℚ
  detected_by : String
  as_of_timestamp : ℕ
deriving DecidableEq, Repr

/-- Modelled from the spec: regime.py is not in the available sources.
Regime detection.  `window` is the rolling window of periodic returns
and `current_vol` the dispersion statistic the volatility tracker
derived from it (the spec's population standard deviation; it is kept
as an input here because the claims quantify over it).  An empty
window yields level 1 (calm) as a safe default; a zero baseline
standard deviation is treated as z-score 0 (calm) to avoid a division
fault; otherwise z = (current_vol − baseline_mean) / baseline_std and
the state is classified by the threshold table.  The function is total:
it always returns a fully populated RegimeState. -/
def detectRegime (window : List ℚ) (current_vol baseline_mean baseline_std : ℚ)
    (detected_by : String) (ts : ℕ) : RegimeState :=
  if window.isEmpty then
    { level := 1, regime_name := .calm, z_score := 0, current_vol := 0,
      baseline_mean := baseline_mean, baseline_std := baseline_std,
      detected_by := detected_by, as_of_timestamp := ts }
  else
    let z : ℚ := if baseline_std = 0 then 0
                 else (current_vol - baseline_mean) / baseline_std
    { level := classifyLevel z, regime_name := classifyName z, z_score := z,
      current_vol := current_vol, baseline_mean := baseline_mean,
      baseline_std := baseline_std, detected_by := detected_by,
      as_of_timestamp := ts }

/-- Percentage of the portfolio allocated to risky assets per regime
(ALLOCATION_RULES in Dashboard.jsx / regimeConfig in
RegimeIndicator.jsx: 80 / 40 / 0). -/
def riskyPct : RegimeName → ℚ
  | .calm => 80
  | .turbulent => 40
  | .crash => 0

/-- Percentage allocated to the safe-haven asset per regime
(15 / 50 / 0). -/
def safePct : RegimeName → ℚ
  | .calm => 15
  | .turbulent => 50
  | .crash => 0

/-- Percentage allocated to cash per regime (5 / 10 / 100). -/
def cashPct : RegimeName → ℚ
  | .calm => 5
  | .turbulent => 10
  | .crash => 100

/-- The fixed four-symbol universe, from Portfolio.jsx getAssets:
two risky symbols, one safe-haven symbol, one cash symbol. -/
def universeSymbols : List String := ["BTC-USD", "ETH-USD", "GLD", "USD"]

/-- Modelled from the spec: rebalancer.py is not in the available
sources.  Target dollar allocation for a regime as a fraction of the
portfolio value, per the spec's allocation table; the risky share is
split evenly across the two risky symbols, the safe share maps to the
safe-haven symbol, the remainder to cash.  Symbols are those of
Portfolio.jsx getAssets. -/
def targetAllocation (r : RegimeName) (pv : ℚ) : List (String × ℚ) :=
  [ ("BTC-USD", pv * riskyPct r / 200)
  , ("ETH-USD", pv * riskyPct r / 200)
  , ("GLD", pv * safePct r / 100)
  , ("USD", pv * cashPct r / 100) ]

/-- Sum of the dollar amounts of an allocation. -/
def allocationTotal (a : List (String × ℚ)) : ℚ :=
  (a.map Prod.snd).sum

/-- RebalanceEvent audit-log entry: timestamp, previous regime level
(none for the deploy pseudo-transition), new level, z-score,
allocation snapshot, human-readable reasoning text. -/
structure RebalanceEvent where
  timestamp : ℕ
  previous_level : Option ℕ
  new_level : ℕ
  z_score : ℚ
  allocation_snapshot : List (String × ℚ)
  reasoning_text : String
deriving DecidableEq, Repr

/-- AccountState: whether capital has been deployed, and the current
portfolio value. -/
structure AccountState where
  deployed : Bool
  portfolio_value : ℚ
deriving DecidableEq, Repr

/-- The per-account state the rebalancing engine reads and persists:
the account, the last persisted regime level (none before deploy), the
current persisted allocation (none before deploy), and the append-only
audit log. -/
structure EngineState where
  account : AccountState
  lastLevel : Option ℕ
  allocation : Option (List (String × ℚ))
  events : List RebalanceEvent
deriving DecidableEq, Repr

/-- Modelled from the spec: rebalancer.py is not in the available
sources.  Human-readable reasoning string; must include the z-score
and the level transition. -/
def mkReasoning (z : ℚ) (lvl : ℕ) : String :=
  "Volatility Z-score: " ++ toString z ++ " -> Level " ++ toString lvl
    ++ " triggered"

/-- Modelled from the spec: rebalancer.py is not in the available
sources.  The RebalanceEvent recorded on a triggering transition: the
previous persisted level (none on the deploy pseudo-transition), the
new level, the z-score, the allocation snapshot and the human-readable
reasoning. -/
def triggerEvent (rs : RegimeState) (s : EngineState) : RebalanceEvent :=
  { timestamp := rs.as_of_timestamp
  , previous_level := if s.account.deployed then s.lastLevel else none
  , new_level := rs.level
  , z_score := rs.z_score
  , allocation_snapshot := targetAllocation rs.regime_name
      s.account.portfolio_value
  , reasoning_text := mkReasoning rs.z_score rs.level }

/-- Modelled from the spec: rebalancer.py is not in the available
sources.  A triggering transition: compute the new allocation from the
portfolio value at evaluation time, persist it together with the new
level, append the RebalanceEvent to the audit log, and return the
event. -/
def triggerResult (rs : RegimeState) (s : EngineState) :
    EngineState × Option RebalanceEvent :=
  ( { account := { deployed := true
                 , portfolio_value := s.account.portfolio_value }
    , lastLevel := some rs.level
    , allocation := some (targetAllocation rs.regime_name
        s.account.portfolio_value)
    , events := s.events ++ [triggerEvent rs s] }
  , some (triggerEvent rs s) )

/-- Modelled from the spec: rebalancer.py is not in the available
sources.  RebalancingEngine.evaluate.  When the account is not yet
deployed, the deploy path runs: an initial allocation from the current
detected regime (a transition from the implicit undeployed
pseudo-state), deployed is set, and the first RebalanceEvent is
recorded.  When deployed, only a level change (detected level ≠ last
persisted level) triggers a rebalance; a same-level poll is a no-op
returning no event and leaving the state untouched. -/
def evaluate (rs : RegimeState) (s : EngineState) :
    EngineState × Option RebalanceEvent :=
  if s.account.deployed then
    match s.lastLevel with
    | none => triggerResult rs s
    | some l => if rs.level = l then (s, none) else triggerResult rs s
  else
    triggerResult rs s

/-- Modelled from the spec: app.py is not in the available sources.
The deploy operation: a first-ever allocation when the account is
undeployed, otherwise a no-op (re-deploy is out of scope). -/
def deploy (rs : RegimeState) (s : EngineState) :
    EngineState × Option RebalanceEvent :=
  if s.account.deployed then (s, none) else evaluate rs s

/-- Modelled from the spec: the stress-test harness is not in the
available sources.  It synthesizes a volatility observation guaranteed
to classify as level 3 (an extreme dispersion against a fixed
synthetic baseline) and feeds it through detection exactly as a live
observation would be. -/
def injectCrash (ts : ℕ) : RegimeState :=
  detectRegime [-1/2] 10 0 1 "stress_test" ts

/-- Modelled from the spec: the stress-test harness is not in the
available sources.  Runs the synthetic crash observation through the
ordinary evaluate path, without bypassing the transition/no-op
logic. -/
def stressTest (ts : ℕ) (s : EngineState) :
    EngineState × Option RebalanceEvent :=
  evaluate (injectCrash ts) s

/-- Cycle-level failures of the decision pipeline. -/
inductive CycleError where
  | IncompleteUniverse : CycleError
  | PersistenceFailure : CycleError
deriving DecidableEq, Repr

/-- Modelled from the spec: market_data.py is not in the available
sources.  Fetching one asset: sources are tried in priority order
(each entry is the outcome of one source after its bounded retries);
the first successful price wins, and the asset fails only when all of
its sources fail. -/
def fetchAsset (sources : List (Option ℚ)) : Option ℚ :=
  sources.findSome? id

/-- Source outcomes for the four required universe assets, in the
order of Portfolio.jsx getAssets. -/
structure FetchInput where
  btcSources : List (Option ℚ)
  ethSources : List (Option ℚ)
  gldSources : List (Option ℚ)
  usdSources : List (Option ℚ)

/-- Modelled from the spec: market_data.py is not in the available
sources.  Regime detection requires all universe assets present, so a
partial result is a fetch failure for the whole cycle. -/
def fetchUniverse (f : FetchInput) : Option (ℚ × ℚ × ℚ × ℚ) :=
  match fetchAsset f.btcSources, fetchAsset f.ethSources,
        fetchAsset f.gldSources, fetchAsset f.usdSources with
  | some b, some e, some g, some u => some (b, e, g, u)
  | _, _, _, _ => none

/-- Modelled from the spec: the orchestration (app.py) is not in the
available sources.  One decision cycle: fetch the universe, and only
if it is complete run detection and rebalance evaluation.  On
IncompleteUniverse the prior engine state is returned unchanged and no
event is produced. -/
def runCycle (f : FetchInput) (window : List ℚ)
    (current_vol baseline_mean baseline_std : ℚ) (ts : ℕ)
    (s : EngineState) :
    EngineState × Option RebalanceEvent × Option CycleError :=
  match fetchUniverse f with
  | none => (s, none, some .IncompleteUniverse)
  | some _ =>
      let rs := detectRegime window current_vol baseline_mean baseline_std
        "volatility_zscore" ts
      let r := evaluate rs s
      (r.1, r.2, none)

namespace Frontend

/-- One entry of regimeConfig in RegimeIndicator.jsx. -/
structure RegimeConfig where
  level : ℕ
  color : String
  label : String
  description : String
  allocRisky : String
  allocSafe : String
  allocCash : String
deriving DecidableEq, Repr

/-- regimeConfig from RegimeIndicator.jsx: keys are the backend's
regime strings bull / volatile / crash. -/
def regimeConfig : String → Option RegimeConfig := fun key =>
  if key = "bull" then
    some { level := 1, color := "#10b981", label := "CALM"
         , description := "Low volatility - 80% Risky Assets"
         , allocRisky := "80%", allocSafe := "15%", allocCash := "5%" }
  else if key = "volatile" then
    some { level := 2, color := "#f59e0b", label := "TURBULENT"
         , description := "High volatility - Rebalancing active"
         , allocRisky := "40%", allocSafe := "50%", allocCash := "10%" }
  else if key = "crash" then
    some { level := 3, color := "#ef4444", label := "CRASH"
         , description := "Market crisis - 100% in Cash"
         , allocRisky := "0%", allocSafe := "0%", allocCash := "100%" }
  else none

/-- The config RegimeIndicator renders for a regime object whose
regime field is the given string: regimeConfig lookup, falling back to
the bull entry when the key is absent
(regimeConfig[regime.regime] || regimeConfig.bull). -/
def regimeIndicatorConfig (regimeField : String) : RegimeConfig :=
  (regimeConfig regimeField).getD
    { level := 1, color := "#10b981", label := "CALM"
    , description := "Low volatility - 80% Risky Assets"
    , allocRisky := "80%", allocSafe := "15%", allocCash := "5%" }

/-- One entry of ALLOCATION_RULES in Dashboard.jsx (percent points). -/
structure AllocationRule where
  risky : ℤ
  safe : ℤ
  cash : ℤ
deriving DecidableEq, Repr

/-- ALLOCATION_RULES from Dashboard.jsx. -/
def ALLOCATION_RULES : String → Option AllocationRule := fun key =>
  if key = "bull" then some { risky := 80, safe := 15, cash := 5 }
  else if key = "volatile" then some { risky := 40, safe := 50, cash := 10 }
  else if key = "crash" then some { risky := 0, safe := 0, cash := 100 }
  else none

/-- Result of Dashboard.getAllocationSummary. -/
structure AllocationSummary where
  risky : ℤ
  safe : ℤ
  cash : ℤ
  source : String
deriving DecidableEq, Repr

/-- Dollar amount of a symbol in an allocation object, 0 when absent
(allocation[sym] || 0; a stored 0 and an absent key coincide). -/
def allocAmount (allocation : List (String × ℚ)) (sym : String) : ℚ :=
  (((allocation.find? fun p => p.1 = sym).map Prod.snd).getD 0)

/-- getAllocationSummary from Dashboard.jsx.  lastRebalance carries the
allocation object and the optional portfolio_value; regimeField is
regime?.regime.  total is portfolio_value || sum of allocation || 1
(JavaScript falsy: absent or zero falls through). -/
def getAllocationSummary (deployed : Bool)
    (lastRebalance : Option (List (String × ℚ) × Option ℚ))
    (regimeField : Option String) : AllocationSummary :=
  if deployed = false then
    { risky := 0, safe := 0, cash := 0, source := "Deploy to see allocation" }
  else
    match lastRebalance with
    | some (allocation, pv) =>
        let sum := (allocation.map Prod.snd).sum
        let sumOr1 := if sum = 0 then 1 else sum
        let total := match pv with
          | some v => if v = 0 then sumOr1 else v
          | none => sumOr1
        let riskyValue := allocAmount allocation "BTC-USD"
          + allocAmount allocation "ETH-USD"
        let safeValue := allocAmount allocation "GLD"
        let cashValue := allocAmount allocation "USD"
        { risky := round (riskyValue / total * 100)
        , safe := round (safeValue / total * 100)
        , cash := round (cashValue / total * 100)
        , source := "Latest rebalance" }
    | none =>
        let target := ((regimeField.bind ALLOCATION_RULES).getD
          { risky := 80, safe := 15, cash := 5 })
        { risky := target.risky, safe := target.safe, cash := target.cash
        , source := "Target allocation" }

/-- One row of Portfolio.jsx getAssets. -/
structure Asset where
  symbol : String
  name : String
  type : String
  value : ℚ
  color : String
deriving DecidableEq, Repr

/-- getAssets from Portfolio.jsx: the fixed four-asset universe with
the dollar amount each symbol holds in the allocation object. -/
def getAssets (allocationDollars : List (String × ℚ)) : List Asset :=
  [ { symbol := "BTC-USD", name := "Bitcoin", type := "Risky"
    , value := allocAmount allocationDollars "BTC-USD", color := "#f7931a" }
  , { symbol := "ETH-USD", name := "Ethereum", type := "Risky"
    , value := allocAmount allocationDollars "ETH-USD", color := "#627eea" }
  , { symbol := "GLD", name := "Gold ETF", type := "Safe"
    , value := allocAmount allocationDollars "GLD", color := "#fbbf24" }
  , { symbol := "USD", name := "Cash (USD)", type := "Cash"
    , value := allocAmount allocationDollars "USD", color := "#6b7280" } ]

end Frontend

/-- The regime name the threshold table pairs with a level. -/
def nameOfLevel : ℕ → RegimeName
  | 3 => .crash
  | 2 => .turbulent
  | _ => .calm

/-- A concrete calm RegimeState used as a fixture in witnesses. -/
def calmState : RegimeState :=
  { level := 1, regime_name := .calm, z_score := 0, current_vol := 1
  , baseline_mean := 1, baseline_std := 2
  , detected_by := "volatility_zscore", as_of_timestamp := 7 }

/-- A fresh, not-yet-deployed account with the configured 100000
starting capital. -/
def freshEngine : EngineState :=
  { account := { deployed := false, portfolio_value := 100000 }
  , lastLevel := none, allocation := none, events := [] }

/-- A deployed account persisted at level 3 with the crash
allocation. -/
def crashEngine : EngineState :=
  { account := { deployed := true, portfolio_value := 100000 }
  , lastLevel := some 3
  , allocation := some (targetAllocation .crash 100000), events := [] }

/-- A fetch where the first universe asset fails on all of its
sources. -/
def failedFetch : FetchInput :=
  { btcSources := [none, none], ethSources := [some 50000]
  , gldSources := [some 180], usdSources := [some 1] }

/-! ## Helper lemmas -/

lemma findSome?_id_eq_none {l : List (Option ℚ)} (h : ∀ o ∈ l, o = none) :
    l.findSome? id = none := by
  induction l with
  | nil => rfl
  | cons a t ih =>
    have ha := h a (by simp)
    subst ha
    simpa [List.findSome?] using ih (fun o ho => h o (by simp [ho]))

lemma classifyLevel_mem (z : ℚ) :
    classifyLevel z = 1 ∨ classifyLevel z = 2 ∨ classifyLevel z = 3 := by
  unfold classifyLevel; split_ifs <;> simp

lemma classifyName_mem (z : ℚ) :
    classifyName z = RegimeName.calm ∨ classifyName z = RegimeName.turbulent
      ∨ classifyName z = RegimeName.crash := by
  unfold classifyName; split_ifs <;> simp

lemma evaluate_eq (rs : RegimeState) (s : EngineState) :
    evaluate rs s =
      if s.account.deployed = true ∧ s.lastLevel = some rs.level
      then (s, none) else triggerResult rs s := by
  unfold evaluate
  by_cases hd : s.account.deployed = true
  · cases hl : s.lastLevel with
    | none => simp [hd, hl]
    | some l =>
      by_cases he : rs.level = l
      · subst he; simp [hd, hl]
      · simp [hd, hl, he]
        rw [if_neg (fun hh : l = rs.level => he (Eq.symm hh))]
  · simp [hd]

lemma evaluate_trigger {rs : RegimeState} {s : EngineState}
    {ev : RebalanceEvent} (h : (evaluate rs s).2 = some ev) :
    ev = triggerEvent rs s ∧ evaluate rs s = triggerResult rs s := by
  rw [evaluate_eq] at h ⊢
  by_cases hc : s.account.deployed = true ∧ s.lastLevel = some rs.level
  · rw [if_pos hc] at h; cases h
  · rw [if_neg hc] at h ⊢
    have hs : some (triggerEvent rs s) = some ev := h
    exact ⟨(Option.some.inj hs).symm, rfl⟩

lemma allocAmount_target (r : RegimeName) (pv : ℚ) :
    Frontend.allocAmount (targetAllocation r pv) "BTC-USD" = pv * riskyPct r / 200
  ∧ Frontend.allocAmount (targetAllocation r pv) "ETH-USD" = pv * riskyPct r / 200
  ∧ Frontend.allocAmount (targetAllocation r pv) "GLD" = pv * safePct r / 100
  ∧ Frontend.allocAmount (targetAllocation r pv) "USD" = pv * cashPct r / 100 :=
  ⟨rfl, rfl, rfl, rfl⟩

lemma allocationTotal_target (r : RegimeName) (pv : ℚ) :
    allocationTotal (targetAllocation r pv) = pv := by
  cases r <;>
    simp [allocationTotal, targetAllocation, riskyPct, safePct, cashPct] <;> ring

lemma fetchUniverse_eq_none {f : FetchInput}
    (h : fetchAsset f.btcSources = none ∨ fetchAsset f.ethSources = none
      ∨ fetchAsset f.gldSources = none ∨ fetchAsset f.usdSources = none) :
    fetchUniverse f = none := by
  unfold fetchUniverse
  rcases hb : fetchAsset f.btcSources with _ | b <;>
    rcases he : fetchAsset f.ethSources with _ | e <;>
      rcases hg : fetchAsset f.gldSources with _ | g <;>
        rcases hu : fetchAsset f.usdSources with _ | u <;>
          simp_all

/-! ## Claims -/

/-- C1.  For every z-score the classification is: level 1 (calm) iff
z < 2.0, level 2 (turbulent) iff 2.0 ≤ z < 3.0, level 3 (crash) iff
z ≥ 3.0 — lower bounds inclusive, higher regimes win ties. -/
theorem regime_classification_thresholds (z : ℚ) :
    (classifyLevel z = 1 ↔ z < 2) ∧ (classifyName z = RegimeName.calm ↔ z < 2)
  ∧ ((classifyLevel z = 2 ↔ 2 ≤ z ∧ z < 3)
      ∧ (classifyName z = RegimeName.turbulent ↔ 2 ≤ z ∧ z < 3))
  ∧ ((classifyLevel z = 3 ↔ 3 ≤ z) ∧ (classifyName z = RegimeName.crash ↔ 3 ≤ z)) := by
  unfold classifyLevel classifyName
  split_ifs with h1 h2 <;> refine ⟨?_, ?_, ⟨?_, ?_⟩, ?_, ?_⟩ <;> simp_all <;> try linarith

/-- C2.  Every RegimeState the detector produces has level in {1,2,3},
regime name in {calm, turbulent, crash}, and its level field equals
the pure deterministic classification of its own z-score field (the
name field likewise) — no field is desynchronized from the level. -/
theorem regimeState_level_invariant (window : List ℚ)
    (current_vol baseline_mean baseline_std : ℚ) (db : String) (ts : ℕ)
    (rs : RegimeState)
    (hrs : rs = detectRegime window current_vol baseline_mean baseline_std db ts) :
    (rs.level = 1 ∨ rs.level = 2 ∨ rs.level = 3)
  ∧ (rs.regime_name = RegimeName.calm ∨ rs.regime_name = RegimeName.turbulent
      ∨ rs.regime_name = RegimeName.crash)
  ∧ rs.level = classifyLevel rs.z_score
  ∧ rs.regime_name = classifyName rs.z_score := by
  subst hrs
  by_cases hw : window.isEmpty
  · simp only [detectRegime, hw, if_true]
    norm_num [classifyLevel, classifyName]
  · simp only [detectRegime, hw, Bool.false_eq_true, if_false]
    exact ⟨classifyLevel_mem _, classifyName_mem _, by trivial, by trivial⟩

/-- C2 witness: the state detected from a one-entry window with
volatility 1 against baseline mean 1 and std 2 has z-score 0 and
level 1. -/
theorem regimeState_level_invariant_witness :
    detectRegime [1/100] 1 1 2 "volatility_zscore" 7
      = detectRegime [1/100] 1 1 2 "volatility_zscore" 7
  ∧ ((detectRegime [1/100] 1 1 2 "volatility_zscore" 7).level = 1
      ∨ (detectRegime [1/100] 1 1 2 "volatility_zscore" 7).level = 2
      ∨ (detectRegime [1/100] 1 1 2 "volatility_zscore" 7).level = 3) :=
  ⟨rfl,
    (regimeState_level_invariant [1/100] 1 1 2 "volatility_zscore" 7 _ rfl).1⟩

/-- C3.  On every triggering transition the recorded allocation is the
target allocation of the detected regime computed from the portfolio
value at evaluation time (not the value at the prior allocation), and
the target fractions are: calm 80% risky / 15% safe / 5% cash,
turbulent 40% / 50% / 10%, crash 0% / 0% / 100%, with the risky share
split across the two risky symbols, the safe share on the safe-haven
symbol and the remainder on cash. -/
theorem rebalance_target_allocation (rs : RegimeState) (s : EngineState)
    (ev : RebalanceEvent) (h : (evaluate rs s).2 = some ev) :
    ev.allocation_snapshot
      = targetAllocation rs.regime_name s.account.portfolio_value
  ∧ (∀ pv : ℚ,
      (Frontend.allocAmount (targetAllocation RegimeName.calm pv) "BTC-USD"
        + Frontend.allocAmount (targetAllocation RegimeName.calm pv) "ETH-USD"
          = 80 / 100 * pv
      ∧ Frontend.allocAmount (targetAllocation RegimeName.calm pv) "GLD"
          = 15 / 100 * pv
      ∧ Frontend.allocAmount (targetAllocation RegimeName.calm pv) "USD"
          = 5 / 100 * pv)
    ∧ (Frontend.allocAmount (targetAllocation RegimeName.turbulent pv) "BTC-USD"
        + Frontend.allocAmount (targetAllocation RegimeName.turbulent pv) "ETH-USD"
          = 40 / 100 * pv
      ∧ Frontend.allocAmount (targetAllocation RegimeName.turbulent pv) "GLD"
          = 50 / 100 * pv
      ∧ Frontend.allocAmount (targetAllocation RegimeName.turbulent pv) "USD"
          = 10 / 100 * pv)
    ∧ (Frontend.allocAmount (targetAllocation RegimeName.crash pv) "BTC-USD"
        + Frontend.allocAmount (targetAllocation RegimeName.crash pv) "ETH-USD"
          = 0
      ∧ Frontend.allocAmount (targetAllocation RegimeName.crash pv) "GLD" = 0
      ∧ Frontend.allocAmount (targetAllocation RegimeName.crash pv) "USD"
          = 100 / 100 * pv)) := by
  constructor
  · rw [(evaluate_trigger h).1]; rfl
  · intro pv
    refine ⟨⟨?_, ?_, ?_⟩, ⟨?_, ?_, ?_⟩, ?_, ?_, ?_⟩ <;>
      simp [Frontend.allocAmount, targetAllocation, riskyPct, safePct, cashPct,
        List.find?] <;> ring

/-- C3 witness: evaluating a calm detection against the deployed
level-3 account triggers, and the event snapshot is the calm target
allocation of the account's current portfolio value. -/
theorem rebalance_target_allocation_witness :
    (evaluate calmState crashEngine).2 = some (triggerEvent calmState crashEngine)
  ∧ (triggerEvent calmState crashEngine).allocation_snapshot
      = targetAllocation calmState.regime_name
          crashEngine.account.portfolio_value :=
  ⟨rfl, (rebalance_target_allocation calmState crashEngine _ rfl).1⟩

/-- C4.  For every triggered rebalance, the sum of the per-symbol
dollar amounts equals the portfolio value exactly (hence within the
±1 rounding tolerance), and every symbol of the allocation belongs to
the fixed four-symbol universe. -/
theorem allocation_sum_invariant (rs : RegimeState) (s : EngineState)
    (ev : RebalanceEvent) (h : (evaluate rs s).2 = some ev) :
    allocationTotal ev.allocation_snapshot = s.account.portfolio_value
  ∧ |allocationTotal ev.allocation_snapshot - s.account.portfolio_value| ≤ 1
  ∧ ∀ p ∈ ev.allocation_snapshot, p.1 ∈ universeSymbols := by
  have hsnap := (evaluate_trigger h).1
  have hsum : allocationTotal ev.allocation_snapshot
      = s.account.portfolio_value := by
    rw [hsnap]
    exact allocationTotal_target _ _
  refine ⟨hsum, by rw [hsum]; simp, ?_⟩
  intro p hp
  rw [hsnap] at hp
  simp only [triggerEvent, targetAllocation, List.mem_cons,
    List.not_mem_nil, or_false] at hp
  rcases hp with h1 | h1 | h1 | h1 <;> subst h1 <;> simp [universeSymbols]

/-- C4 witness: the triggered calm rebalance on the 100000 account
sums exactly to the portfolio value. -/
theorem allocation_sum_invariant_witness :
    (evaluate calmState crashEngine).2 = some (triggerEvent calmState crashEngine)
  ∧ allocationTotal (triggerEvent calmState crashEngine).allocation_snapshot
      = crashEngine.account.portfolio_value :=
  ⟨rfl, (allocation_sum_invariant calmState crashEngine _ rfl).1⟩

/-- C5.  evaluate is idempotent for an unchanged RegimeState: after
one call, a second call with the same detected level returns no event
and leaves the state untouched, so two calls produce at most one
RebalanceEvent in total (the first call appends exactly its returned
event); and a rebalance is triggered exactly when the detected level
differs from the last persisted level. -/
theorem evaluate_idempotent (rs : RegimeState) (s : EngineState) (l : ℕ)
    (hd : s.account.deployed = true) (hl : s.lastLevel = some l) :
    evaluate rs (evaluate rs s).1 = ((evaluate rs s).1, none)
  ∧ (evaluate rs s).1.events = s.events ++ ((evaluate rs s).2).toList
  ∧ ((evaluate rs s).2 = none ↔ rs.level = l) := by
  rw [evaluate_eq rs s]
  by_cases hc : rs.level = l
  · subst hc
    rw [if_pos ⟨hd, hl⟩]
    refine ⟨?_, by simp, by simp⟩
    rw [evaluate_eq]
    rw [if_pos ⟨hd, hl⟩]
  · have hnc : ¬(s.account.deployed = true ∧ s.lastLevel = some rs.level) := by
      rintro ⟨-, hll⟩
      rw [hl] at hll
      exact hc (Option.some.inj hll).symm
    rw [if_neg hnc]
    refine ⟨?_, by simp [triggerResult], by simp [triggerResult, hc]⟩
    rw [evaluate_eq]
    rw [if_pos ⟨rfl, rfl⟩]

/-- C5 witness: on the deployed level-3 account, a second evaluation
of the same calm detection is a no-op. -/
theorem evaluate_idempotent_witness :
    crashEngine.account.deployed = true ∧ crashEngine.lastLevel = some 3
  ∧ evaluate calmState (evaluate calmState crashEngine).1
      = ((evaluate calmState crashEngine).1, none) :=
  ⟨rfl, rfl, (evaluate_idempotent calmState crashEngine 3 rfl rfl).1⟩

/-- C6.  When the account is not deployed, deploy performs the initial
allocation from the current detected regime, sets deployed, and
records the first RebalanceEvent; with regime calm and starting
capital 100000 the allocation is risky 80000 (split over the two
risky symbols), safe 15000, cash 5000. -/
theorem deploy_initial_allocation (rs : RegimeState) (s : EngineState)
    (h : s.account.deployed = false) :
    (deploy rs s).1.account.deployed = true
  ∧ (deploy rs s).1.allocation
      = some (targetAllocation rs.regime_name s.account.portfolio_value)
  ∧ (deploy rs s).2 = some (triggerEvent rs s)
  ∧ (deploy rs s).1.events = s.events ++ [triggerEvent rs s]
  ∧ (deploy rs s).1.lastLevel = some rs.level
  ∧ (Frontend.allocAmount (targetAllocation RegimeName.calm 100000) "BTC-USD"
      + Frontend.allocAmount (targetAllocation RegimeName.calm 100000) "ETH-USD"
        = 80000)
  ∧ Frontend.allocAmount (targetAllocation RegimeName.calm 100000) "GLD" = 15000
  ∧ Frontend.allocAmount (targetAllocation RegimeName.calm 100000) "USD" = 5000 := by
  have hde : deploy rs s = triggerResult rs s := by
    unfold deploy
    rw [if_neg (by simp [h]), evaluate_eq, if_neg (by simp [h])]
  rw [hde]
  refine ⟨rfl, rfl, rfl, rfl, rfl, ?_, ?_, ?_⟩ <;>
    simp [Frontend.allocAmount, targetAllocation, riskyPct, safePct, cashPct,
      List.find?] <;> norm_num

/-- C6 witness: deploying the fresh 100000 account from a calm
detection sets deployed and allocates 15000 to the safe-haven
symbol. -/
theorem deploy_initial_allocation_witness :
    freshEngine.account.deployed = false
  ∧ (deploy calmState freshEngine).1.account.deployed = true
  ∧ Frontend.allocAmount (targetAllocation RegimeName.calm 100000) "GLD" = 15000 :=
  ⟨rfl, (deploy_initial_allocation calmState freshEngine rfl).1,
    (deploy_initial_allocation calmState freshEngine rfl).2.2.2.2.2.2.1⟩

/-- C7.  From any starting regime level of a deployed, consistent
account, the stress test ends at level 3 with the 100%-cash crash
allocation and an unchanged portfolio value; and it does not bypass
the no-op logic: if the account is already at level 3 the stress test
produces no new RebalanceEvent and leaves the state identical. -/
theorem stress_test_forces_crash (ts : ℕ) (s : EngineState) (l : ℕ)
    (hd : s.account.deployed = true) (hl : s.lastLevel = some l)
    (ha : s.allocation
      = some (targetAllocation (nameOfLevel l) s.account.portfolio_value)) :
    (stressTest ts s).1.lastLevel = some 3
  ∧ (stressTest ts s).1.allocation
      = some (targetAllocation RegimeName.crash s.account.portfolio_value)
  ∧ (stressTest ts s).1.account.portfolio_value = s.account.portfolio_value
  ∧ (l = 3 → stressTest ts s = (s, none)) := by
  have hlvl : (injectCrash ts).level = 3 := by
    norm_num [injectCrash, detectRegime, classifyLevel]
  have hnm : (injectCrash ts).regime_name = RegimeName.crash := by
    norm_num [injectCrash, detectRegime, classifyName]
  unfold stressTest
  rw [evaluate_eq]
  by_cases hc : l = 3
  · subst hc
    rw [if_pos ⟨hd, by rw [hl, hlvl]⟩]
    refine ⟨by rw [hl], by rw [ha]; rfl, rfl, fun _ => rfl⟩
  · have hnc : ¬(s.account.deployed = true
        ∧ s.lastLevel = some (injectCrash ts).level) := by
      rintro ⟨-, hll⟩
      rw [hl, hlvl] at hll
      exact hc (Option.some.inj hll)
    rw [if_neg hnc]
    refine ⟨?_, ?_, rfl, fun hh => absurd hh hc⟩
    · show some (injectCrash ts).level = some 3
      rw [hlvl]
    · show some (targetAllocation (injectCrash ts).regime_name
          s.account.portfolio_value) = _
      rw [hnm]

/-- C7 witness: on the account already at level 3 with the crash
allocation, a repeated stress test is a no-op and the account stays
at level 3. -/
theorem stress_test_forces_crash_witness :
    crashEngine.account.deployed = true ∧ crashEngine.lastLevel = some 3
  ∧ crashEngine.allocation
      = some (targetAllocation (nameOfLevel 3) crashEngine.account.portfolio_value)
  ∧ stressTest 9 crashEngine = (crashEngine, none)
  ∧ (stressTest 9 crashEngine).1.lastLevel = some 3 :=
  ⟨rfl, rfl, rfl, (stress_test_forces_crash 9 crashEngine 3 rfl rfl rfl).2.2.2 rfl,
    (stress_test_forces_crash 9 crashEngine 3 rfl rfl rfl).1⟩

/-- C8.  Regime detection is total on degenerate input: a zero
baseline standard deviation yields z-score 0 and the calm regime, an
empty rolling window yields level 1 (calm), and on every input the
result is a fully populated, correctly classified RegimeState. -/
theorem detection_total_on_degenerate_input (window : List ℚ)
    (current_vol baseline_mean baseline_std : ℚ) (db : String) (ts : ℕ)
    (rs : RegimeState)
    (hrs : rs = detectRegime window current_vol baseline_mean baseline_std db ts) :
    (baseline_std = 0 →
      rs.z_score = 0 ∧ rs.level = 1 ∧ rs.regime_name = RegimeName.calm)
  ∧ (window = [] → rs.level = 1 ∧ rs.regime_name = RegimeName.calm)
  ∧ rs.level = classifyLevel rs.z_score
  ∧ rs.regime_name = classifyName rs.z_score
  ∧ rs.baseline_mean = baseline_mean ∧ rs.baseline_std = baseline_std
  ∧ rs.detected_by = db ∧ rs.as_of_timestamp = ts := by
  subst hrs
  by_cases hw : window.isEmpty
  · simp only [detectRegime, hw, if_true]
    norm_num [classifyLevel, classifyName]
  · simp only [detectRegime, hw, Bool.false_eq_true, if_false]
    refine ⟨?_, ?_, by trivial, by trivial, by trivial, by trivial, by trivial,
      by trivial⟩
    · intro hbs
      norm_num [hbs, classifyLevel, classifyName]
    · intro he
      rw [he] at hw
      simp at hw

/-- C8 witness: at the degenerate input (empty window, zero baseline
standard deviation) the detector returns z-score 0, level 1, calm. -/
theorem detection_total_on_degenerate_input_witness :
    detectRegime [] 1 0 0 "volatility_zscore" 7
      = detectRegime [] 1 0 0 "volatility_zscore" 7
  ∧ ((0 : ℚ) = 0 → (detectRegime [] 1 0 0 "volatility_zscore" 7).z_score = 0
        ∧ (detectRegime [] 1 0 0 "volatility_zscore" 7).level = 1
        ∧ (detectRegime [] 1 0 0 "volatility_zscore" 7).regime_name = RegimeName.calm)
  ∧ (([] : List ℚ) = [] → (detectRegime [] 1 0 0 "volatility_zscore" 7).level = 1
        ∧ (detectRegime [] 1 0 0 "volatility_zscore" 7).regime_name = RegimeName.calm) :=
  ⟨rfl,
   (detection_total_on_degenerate_input [] 1 0 0 "volatility_zscore" 7 _ rfl).1,
   (detection_total_on_degenerate_input [] 1 0 0 "volatility_zscore" 7 _ rfl).2.1⟩

/-- C9.  If one of the four required universe assets fails on all of
its sources, the decision cycle fails with IncompleteUniverse and the
returned engine state — RegimeState, allocation and audit log — is
identical to its pre-call value, with no event produced. -/
theorem incomplete_universe_no_mutation (f : FetchInput) (window : List ℚ)
    (current_vol baseline_mean baseline_std : ℚ) (ts : ℕ) (s : EngineState)
    (h : (∀ o ∈ f.btcSources, o = none) ∨ (∀ o ∈ f.ethSources, o = none)
      ∨ (∀ o ∈ f.gldSources, o = none) ∨ (∀ o ∈ f.usdSources, o = none)) :
    runCycle f window current_vol baseline_mean baseline_std ts s
      = (s, none, some CycleError.IncompleteUniverse) := by
  have hfetch : fetchUniverse f = none := by
    refine fetchUniverse_eq_none ?_
    rcases h with h | h | h | h
    · exact Or.inl (findSome?_id_eq_none h)
    · exact Or.inr (Or.inl (findSome?_id_eq_none h))
    · exact Or.inr (Or.inr (Or.inl (findSome?_id_eq_none h)))
    · exact Or.inr (Or.inr (Or.inr (findSome?_id_eq_none h)))
  simp [runCycle, hfetch]

/-- C9 witness: when every source of the first universe asset fails,
the cycle on the deployed account returns the unchanged state, no
event and IncompleteUniverse. -/
theorem incomplete_universe_no_mutation_witness :
    (∀ o ∈ failedFetch.btcSources, o = none)
  ∧ runCycle failedFetch [1/100] 1 1 2 7 crashEngine
      = (crashEngine, none, some CycleError.IncompleteUniverse) :=
  ⟨by simp [failedFetch],
    incomplete_universe_no_mutation failedFetch [1/100] 1 1 2 7 crashEngine
      (Or.inl (by simp [failedFetch]))⟩

/-- C10.  For every regime string that is not bull, volatile or crash
— including the names calm and turbulent — the UI falls back to the
level-1 presentation: RegimeIndicator renders the bull configuration
and Dashboard.getAllocationSummary returns the 80 / 15 / 5 target. -/
theorem unknown_regime_falls_back_to_bull (rf : String)
    (h : ¬(rf = "bull" ∨ rf = "volatile" ∨ rf = "crash")) :
    Frontend.regimeIndicatorConfig rf = Frontend.regimeIndicatorConfig "bull"
  ∧ (Frontend.regimeIndicatorConfig rf).level = 1
  ∧ (Frontend.regimeIndicatorConfig rf).label = "CALM"
  ∧ Frontend.getAllocationSummary true none (some rf)
      = { risky := 80, safe := 15, cash := 5, source := "Target allocation" }
  ∧ Frontend.regimeIndicatorConfig "calm" = Frontend.regimeIndicatorConfig "bull"
  ∧ Frontend.getAllocationSummary true none (some "turbulent")
      = { risky := 80, safe := 15, cash := 5, source := "Target allocation" } := by
  push_neg at h
  obtain ⟨h1, h2, h3⟩ := h
  have hc : Frontend.regimeConfig rf = none := by
    unfold Frontend.regimeConfig
    rw [if_neg h1, if_neg h2, if_neg h3]
  have hr : Frontend.ALLOCATION_RULES rf = none := by
    unfold Frontend.ALLOCATION_RULES
    rw [if_neg h1, if_neg h2, if_neg h3]
  refine ⟨?_, ?_, ?_, ?_, rfl, rfl⟩
  · simp only [Frontend.regimeIndicatorConfig, hc, Option.getD_none]
    rfl
  · simp [Frontend.regimeIndicatorConfig, hc]
  · simp [Frontend.regimeIndicatorConfig, hc]
  · simp [Frontend.getAllocationSummary, hr]

/-- C10 witness: the regime string calm is none of the three known
keys, and the dashboard summary for it is the 80 / 15 / 5 bull
target. -/
theorem unknown_regime_falls_back_to_bull_witness :
    ¬(("calm" : String) = "bull" ∨ ("calm" : String) = "volatile"
        ∨ ("calm" : String) = "crash")
  ∧ Frontend.getAllocationSummary true none (some "calm")
      = { risky := 80, safe := 15, cash := 5, source := "Target allocation" } :=
  ⟨by decide, (unknown_regime_falls_back_to_bull "calm" (by decide)).2.2.2.1⟩

end Kavach
